import Mathlib

/-!
# RAJA Performance Suite: enumerations, run parameters and the Stream DOT kernel

A shallow embedding of

* `src/common/RAJAPerfSuite.hpp` : the enumerations `GroupID`, `KernelID`, `VariantID`;
* `src/common/RunParams.hpp`     : the class `RunParams` (inline members);
* `src/stream/DOT.cpp`           : the kernel `DOT` (`setUp`, `runKernel`,
  `updateChecksum`, `tearDown`).

Floating point values (`Real_type`, `Checksum_type`, `double`) are exact rationals.
-/

namespace rajaperf

/-! ## C enumerations

An `enum` declaration is the list of its enumerators that survive preprocessing.
The first enumerator of each enumeration below is written `= 0` and no other
enumerator has an initialiser, so the value of an enumerator is its position. -/

/-- Value of enumerator `e` in the declaration `decl`: its position, when declared. -/
def enumValue {α : Type} [DecidableEq α] (decl : List α) (e : α) : Option Nat :=
  if e ∈ decl then some (decl.indexOf e) else none

/-- Block kept by the preprocessor when `cond` holds (`#if cond ... #endif`). -/
def ppIf {α : Type} (cond : Bool) (block : List α) : List α :=
  if cond then block else []

/-- Enumerator names of `enum GroupID`. -/
inductive GroupID where
  | Basic | Lcals | Polybench | Stream | Apps | NumGroups
  deriving DecidableEq, Repr

/-- Declaration of `enum GroupID` (RAJAPerfSuite.hpp, lines 76-86). -/
def GroupID.decl : List GroupID :=
  [.Basic, .Lcals, .Polybench, .Stream, .Apps, .NumGroups]

/-- Integer value of a group enumerator. -/
def GroupID.value (g : GroupID) : Option Nat := enumValue GroupID.decl g

/-- Identifier of a group enumerator as written in the source. -/
def GroupID.ident : GroupID → String
  | .Basic => "Basic"
  | .Lcals => "Lcals"
  | .Polybench => "Polybench"
  | .Stream => "Stream"
  | .Apps => "Apps"
  | .NumGroups => "NumGroups"

/-- Enumerator names of `enum KernelID`, the ones inside `#if 0` included. -/
inductive KernelID where
  | Basic_MULADDSUB | Basic_IF_QUAD | Basic_TRAP_INT | Basic_INIT3
  | Basic_REDUCE3_INT | Basic_NESTED_INIT
  | Lcals_HYDRO_1D | Lcals_EOS | Lcals_FIRST_DIFF
  | Lcals_PIC_2D | Lcals_DISC_ORD
  | Polybench_2MM | Polybench_3MM | Polybench_GEMMVER
  | Stream_COPY | Stream_MUL | Stream_ADD | Stream_TRIAD | Stream_DOT
  | Apps_PRESSURE | Apps_ENERGY | Apps_VOL3D | Apps_DEL_DOT_VEC_2D
  | Apps_COUPLE | Apps_FIR
  | NumKernels
  deriving DecidableEq, Repr

/-- Declaration of `enum KernelID` (RAJAPerfSuite.hpp, lines 102-155), with the
two constant preprocessor conditionals `#if 0` and `#if 1`. -/
def KernelID.decl : List KernelID :=
  [.Basic_MULADDSUB, .Basic_IF_QUAD, .Basic_TRAP_INT, .Basic_INIT3,
   .Basic_REDUCE3_INT, .Basic_NESTED_INIT,
   .Lcals_HYDRO_1D, .Lcals_EOS, .Lcals_FIRST_DIFF]
  ++ ppIf false [.Lcals_PIC_2D, .Lcals_DISC_ORD]
  ++ ppIf true [.Polybench_2MM, .Polybench_3MM, .Polybench_GEMMVER]
  ++ [.Stream_COPY, .Stream_MUL, .Stream_ADD, .Stream_TRIAD, .Stream_DOT,
      .Apps_PRESSURE, .Apps_ENERGY, .Apps_VOL3D, .Apps_DEL_DOT_VEC_2D,
      .Apps_COUPLE, .Apps_FIR,
      .NumKernels]

/-- Integer value of a kernel enumerator (`none` when it is preprocessed away). -/
def KernelID.value (k : KernelID) : Option Nat := enumValue KernelID.decl k

/-- Identifier of a kernel enumerator as written in the source. -/
def KernelID.ident : KernelID → String
  | .Basic_MULADDSUB => "Basic_MULADDSUB"
  | .Basic_IF_QUAD => "Basic_IF_QUAD"
  | .Basic_TRAP_INT => "Basic_TRAP_INT"
  | .Basic_INIT3 => "Basic_INIT3"
  | .Basic_REDUCE3_INT => "Basic_REDUCE3_INT"
  | .Basic_NESTED_INIT => "Basic_NESTED_INIT"
  | .Lcals_HYDRO_1D => "Lcals_HYDRO_1D"
  | .Lcals_EOS => "Lcals_EOS"
  | .Lcals_FIRST_DIFF => "Lcals_FIRST_DIFF"
  | .Lcals_PIC_2D => "Lcals_PIC_2D"
  | .Lcals_DISC_ORD => "Lcals_DISC_ORD"
  | .Polybench_2MM => "Polybench_2MM"
  | .Polybench_3MM => "Polybench_3MM"
  | .Polybench_GEMMVER => "Polybench_GEMMVER"
  | .Stream_COPY => "Stream_COPY"
  | .Stream_MUL => "Stream_MUL"
  | .Stream_ADD => "Stream_ADD"
  | .Stream_TRIAD => "Stream_TRIAD"
  | .Stream_DOT => "Stream_DOT"
  | .Apps_PRESSURE => "Apps_PRESSURE"
  | .Apps_ENERGY => "Apps_ENERGY"
  | .Apps_VOL3D => "Apps_VOL3D"
  | .Apps_DEL_DOT_VEC_2D => "Apps_DEL_DOT_VEC_2D"
  | .Apps_COUPLE => "Apps_COUPLE"
  | .Apps_FIR => "Apps_FIR"
  | .NumKernels => "NumKernels"

/-- The sentinel count `NumKernels` as a number. -/
def NumKernels : Nat := (KernelID.value .NumKernels).getD 0

/-- The sentinel count `NumGroups` as a number. -/
def NumGroups : Nat := (GroupID.value .NumGroups).getD 0

/-- The kernels of the suite: the declared enumerators other than the sentinel. -/
def KernelID.kernels : List KernelID :=
  KernelID.decl.filter (fun k => decide (k ≠ .NumKernels))

/-- Part of an identifier before its first underscore. -/
def identHead (s : String) : List Char :=
  s.toList.takeWhile (fun c => c != '_')

/-- The group enumerator whose identifier is the prefix of the kernel's identifier. -/
def KernelID.headGroup (k : KernelID) : Option GroupID :=
  GroupID.decl.find? (fun g => decide (g.ident.toList = identHead k.ident))

/-- Integer value of the group named by the prefix of a kernel's identifier. -/
def KernelID.groupValue (k : KernelID) : Option Nat :=
  k.headGroup.bind GroupID.value

/-! ### VariantID and the build configuration -/

/-- Preprocessor symbols the sources test: `ENABLE_OPENMP` and `ENABLE_CUDA` in
RAJAPerfSuite.hpp, `_OPENMP` and `RAJA_ENABLE_CUDA` in DOT.cpp. -/
structure BuildConfig where
  ENABLE_OPENMP : Bool
  ENABLE_CUDA : Bool
  _OPENMP : Bool
  RAJA_ENABLE_CUDA : Bool
  deriving DecidableEq, Repr

/-- Enumerator names of `enum VariantID` (the ones inside `#if 0` are left out:
no build declares them). -/
inductive VariantName where
  | Base_Seq | RAJA_Seq
  | Base_OpenMP | RAJALike_OpenMP | RAJA_OpenMP
  | Base_CUDA | RAJA_CUDA
  | NumVariants
  deriving DecidableEq, Repr

/-- Declaration of `enum VariantID` (RAJAPerfSuite.hpp, lines 170-190). -/
def VariantName.decl (cfg : BuildConfig) : List VariantName :=
  [.Base_Seq, .RAJA_Seq]
  ++ ppIf cfg.ENABLE_OPENMP [.Base_OpenMP, .RAJALike_OpenMP, .RAJA_OpenMP]
  ++ ppIf cfg.ENABLE_CUDA [.Base_CUDA, .RAJA_CUDA]
  ++ [.NumVariants]

/-- Integer value of a variant enumerator in a build (`none` when not declared). -/
def VariantName.value (cfg : BuildConfig) (v : VariantName) : Option Nat :=
  enumValue (VariantName.decl cfg) v

/-- The sentinel count `NumVariants` as a number. -/
def NumVariants (cfg : BuildConfig) : Nat :=
  (VariantName.value cfg .NumVariants).getD 0

/-- The variants of a build: the declared enumerators other than the sentinel. -/
def VariantName.variants (cfg : BuildConfig) : List VariantName :=
  (VariantName.decl cfg).filter (fun v => decide (v ≠ .NumVariants))

/-- A value of the C++ type `VariantID`: the integer the enumerator stands for. -/
abbrev VariantID := Nat

/-- The first enumerator is written `Base_Seq = 0`. -/
def Base_Seq : VariantID := 0

/-- The enumerator after `Base_Seq`, outside every conditional: value 1. -/
def RAJA_Seq : VariantID := 1

/-! ## RunParams (RunParams.hpp) -/

/-- Enumeration `RunParams::InputOpt`: state of the input options. -/
inductive InputOpt where
  | InfoRequest | DryRun | GoodToRun | BadInput | Undefined
  deriving DecidableEq, Repr

/-- Data members of `class RunParams`. -/
structure RunParams where
  input_state : InputOpt
  npasses : Int
  sample_fraction : ℚ
  size_fraction : ℚ
  reference_variant : String
  kernel_input : List String
  invalid_kernel_input : List String
  variant_input : List String
  invalid_variant_input : List String
  outdir : String
  outfile_prefix : String
  deriving DecidableEq, Repr

namespace RunParams

/-- Member `getInputState() const` (line 63). -/
def getInputState (p : RunParams) : InputOpt := p.input_state

/-- Member `setInputState(InputOpt is)` (line 68). -/
def setInputState (p : RunParams) (is : InputOpt) : RunParams :=
  { p with input_state := is }

/-- Member `getNumPasses() const` (line 76). -/
def getNumPasses (p : RunParams) : Int := p.npasses

/-- Member `getSampleFraction() const` (line 78). -/
def getSampleFraction (p : RunParams) : ℚ := p.sample_fraction

/-- Member `getSizeFraction() const` (line 80). -/
def getSizeFraction (p : RunParams) : ℚ := p.size_fraction

/-- Member `getReferenceVariant() const` (line 82). -/
def getReferenceVariant (p : RunParams) : String := p.reference_variant

/-- Member `getKernelInput() const` (lines 84-85). -/
def getKernelInput (p : RunParams) : List String := p.kernel_input

/-- Member `setInvalidKernelInput(svec)` (lines 86-87). -/
def setInvalidKernelInput (p : RunParams) (svec : List String) : RunParams :=
  { p with invalid_kernel_input := svec }

/-- Member `getInvalidKernelInput() const` (lines 88-89). -/
def getInvalidKernelInput (p : RunParams) : List String := p.invalid_kernel_input

/-- Member `getVariantInput() const` (lines 91-92). -/
def getVariantInput (p : RunParams) : List String := p.variant_input

/-- Member `setInvalidVariantInput(svec)` (lines 93-94). -/
def setInvalidVariantInput (p : RunParams) (svec : List String) : RunParams :=
  { p with invalid_variant_input := svec }

/-- Member `getInvalidVariantInput() const` (lines 95-96). -/
def getInvalidVariantInput (p : RunParams) : List String := p.invalid_variant_input

/-- Member `getOutputDirName() const` (line 98). -/
def getOutputDirName (p : RunParams) : String := p.outdir

/-- Member `getOutputFilePrefix() const` (line 99). -/
def getOutputFilePrefix (p : RunParams) : String := RunParams.outfile_prefix p

/-- The public operations on a constructed object: the member functions written in
lines 63-106 and the implicitly declared copy assignment operator `p = q`. The class
declares no assignment operator and deletes only the default constructor (line 110),
and every data member is copy-assignable, so the copy assignment is public; the
user-declared destructor suppresses the implicit move operations, so an assignment
from an rvalue is this copy assignment too. The copy constructor builds a new object
and the destructor ends the object, so neither is an operation on a constructed
object. -/
inductive Op where
  | getInputState
  | setInputState (is : InputOpt)
  | getNumPasses
  | getSampleFraction
  | getSizeFraction
  | getReferenceVariant
  | getKernelInput
  | setInvalidKernelInput (svec : List String)
  | getInvalidKernelInput
  | getVariantInput
  | setInvalidVariantInput (svec : List String)
  | getInvalidVariantInput
  | getOutputDirName
  | getOutputFilePrefix
  | print
  | copyAssign (q : RunParams)
  deriving DecidableEq, Repr

/-- Object state after a public operation. The getters and `print` are `const` member
functions and the class has no `mutable` member, so they leave the object as it is;
the implicit copy assignment assigns every data member from the right-hand object. -/
def exec (op : Op) (p : RunParams) : RunParams :=
  match op with
  | .getInputState => p
  | .setInputState is => p.setInputState is
  | .getNumPasses => p
  | .getSampleFraction => p
  | .getSizeFraction => p
  | .getReferenceVariant => p
  | .getKernelInput => p
  | .setInvalidKernelInput svec => p.setInvalidKernelInput svec
  | .getInvalidKernelInput => p
  | .getVariantInput => p
  | .setInvalidVariantInput svec => p.setInvalidVariantInput svec
  | .getInvalidVariantInput => p
  | .getOutputDirName => p
  | .getOutputFilePrefix => p
  | .print => p
  | .copyAssign q => q

/-- A constructed object of a valid run, used as a concrete input. -/
def sample : RunParams where
  input_state := .GoodToRun
  npasses := 1
  sample_fraction := 1
  size_fraction := 1
  reference_variant := "Base_Seq"
  kernel_input := ["Stream_DOT"]
  invalid_kernel_input := []
  variant_input := ["Base_Seq", "RAJA_Seq"]
  invalid_variant_input := []
  outdir := "."
  outfile_prefix := "RAJAPerf"

/-- A second constructed object, of a dry run with other parameters. -/
def other : RunParams where
  input_state := .DryRun
  npasses := 3
  sample_fraction := 1 / 2
  size_fraction := 1 / 4
  reference_variant := "RAJA_Seq"
  kernel_input := ["Basic"]
  invalid_kernel_input := ["NoSuchKernel"]
  variant_input := ["RAJA_Seq"]
  invalid_variant_input := ["NoSuchVariant"]
  outdir := "out"
  outfile_prefix := "run"

end RunParams

/-! ## The Stream kernel DOT (DOT.cpp) -/

abbrev Real_type := ℚ
abbrev Checksum_type := ℚ
abbrev Index_type := Nat
abbrev RepIndex_type := Nat

/-- A buffer of `Real_type` behind a `Real_ptr`; the empty list after deallocation. -/
abbrev Real_ptr := List Real_type

/-- Observable steps of `runKernel`: the calls of the timer members `startTimer()`
and `stopTimer()`, one pass through the body of the repetition loop, the device
data set up before and released after the timed region of the CUDA cases, and the
diagnostic of the `default` branch. -/
inductive Event where
  | startTimer
  | stopTimer
  | rep (irep : RepIndex_type)
  | deviceSetup
  | deviceTeardown
  | unknownVariant (vid : VariantID)
  deriving DecidableEq, Repr

/-- An event of the timed execution: a timer call or a repetition. -/
def Event.isTimed : Event → Bool
  | .startTimer | .stopTimer | .rep _ => true
  | _ => false

/-- A pass through the body of the repetition loop. -/
def Event.isRep : Event → Bool
  | .rep _ => true
  | _ => false

/-- Modelled from the spec: the part of the base class `KernelBase` that DOT.cpp uses
(KernelBase.hpp is not among the sources). `run_size` and `run_reps` are the values
returned by `getRunSize()` and `getRunReps()`, `checksum` is the per-variant checksum
array, `events` stands for the timer: it records the observable steps. -/
@[ext]
structure KernelBase where
  run_size : Index_type
  run_reps : Index_type
  checksum : List Checksum_type
  events : List Event
  deriving DecidableEq, Repr

/-- State of a `DOT` object (`class DOT : public KernelBase`): the data members used in
DOT.cpp. -/
@[ext]
structure DOT extends KernelBase where
  m_a : Real_ptr
  m_b : Real_ptr
  m_dot : Real_type
  m_dot_init : Real_type
  deriving DecidableEq, Repr

/-- Loop `for (i = ibegin; i < iend; ++i) body` as a state transformer. -/
def forLoop {σ : Type} (ibegin iend : Nat) (body : Nat → σ → σ) (init : σ) : σ :=
  (List.range' ibegin (iend - ibegin)).foldl (fun st i => body i st) init

/-- Read of `p[i]`. The loops below read indices below the run size, the number of
elements `setUp` allocates; a read outside the buffer is given the value 0. -/
def Real_ptr.read (p : Real_ptr) (i : Index_type) : Real_type := p.getD i 0

/-- Macro `DOT_BODY` with `dot` a `Real_type`: `dot += a[i] * b[i] ;`. -/
def DOT_BODY (a b : Real_ptr) (i : Index_type) (dot : Real_type) : Real_type :=
  dot + a.read i * b.read i

/-- A sum reducer (`RAJA::ReduceSum`, or the variable of an OpenMP `reduction(+:dot)`
clause) in exact arithmetic: the seed it is created with and the contributions
added to it. -/
structure ReduceSum where
  seed : Real_type
  parts : List Real_type
  deriving DecidableEq, Repr

/-- Construction of a reducer from its initial value. -/
def ReduceSum.init (seed : Real_type) : ReduceSum := ⟨seed, []⟩

/-- Operator `+=` of a reducer. -/
def ReduceSum.add (r : ReduceSum) (x : Real_type) : ReduceSum :=
  { r with parts := x :: r.parts }

/-- Member `get()`: the seed plus the sum of the contributions. -/
def ReduceSum.get (r : ReduceSum) : Real_type := r.seed + r.parts.sum

/-- Macro `DOT_BODY` with `dot` a reducer. -/
def DOT_BODY_reduce (a b : Real_ptr) (i : Index_type) (dot : ReduceSum) : ReduceSum :=
  dot.add (a.read i * b.read i)

/-- The call `RAJA::forall<policy>(ibegin, iend, body)`: `body` once for each index. -/
def RAJA_forall {σ : Type} (ibegin iend : Index_type) (body : Index_type → σ → σ)
    (init : σ) : σ :=
  forLoop ibegin iend body init

/-- The call `thrust::inner_product(va.begin(), va.end(), vb.begin(), init)`. -/
def thrust_inner_product (va vb : List Real_type) (init : Real_type) : Real_type :=
  (List.zip va vb).foldl (fun acc p => acc + p.1 * p.2) init

namespace DOT

/-- Modelled from the spec: `KernelBase::startTimer()` (KernelBase.hpp is not among the
sources), the start of the timed region, recorded as an event. -/
def startTimer (s : DOT) : DOT := { s with events := s.events ++ [Event.startTimer] }

/-- Modelled from the spec: `KernelBase::stopTimer()` (KernelBase.hpp is not among the
sources), the end of the timed region, recorded as an event. -/
def stopTimer (s : DOT) : DOT := { s with events := s.events ++ [Event.stopTimer] }

/-- Member `DOT::setUp` (lines 128-135). `a` and `b` are the buffers the two calls of
`allocAndInitData(ptr, getRunSize(), vid)` (common/DataUtils.hpp) leave in `m_a`
and `m_b`. -/
def setUp (a b : Real_ptr) (_vid : VariantID) (s : DOT) : DOT :=
  { s with m_a := a, m_b := b, m_dot := 0, m_dot_init := 0 }

/-- One pass of a repetition loop `{ <dot from m_dot_init> ; m_dot += dot; }`, where
`dotOf` is the value the pass computes from the seed `m_dot_init`. -/
def repBody (dotOf : Real_type → Real_type) (irep : RepIndex_type) (s : DOT) : DOT :=
  { s with m_dot := s.m_dot + dotOf s.m_dot_init, events := s.events ++ [Event.rep irep] }

/-- The case label of the `switch ( vid )` in `runKernel` that `vid` selects, `none`
for the `default` branch. A label exists when its `#if` block is compiled and its
enumerator is declared. -/
def caseLabel (cfg : BuildConfig) (vid : VariantID) : Option VariantName :=
  if vid = Base_Seq then some .Base_Seq
  else if vid = RAJA_Seq then some .RAJA_Seq
  else if cfg._OPENMP && decide (VariantName.value cfg .Base_OpenMP = some vid) then
    some .Base_OpenMP
  else if cfg._OPENMP && decide (VariantName.value cfg .RAJALike_OpenMP = some vid) then
    some .RAJALike_OpenMP
  else if cfg._OPENMP && decide (VariantName.value cfg .RAJA_OpenMP = some vid) then
    some .RAJA_OpenMP
  else if cfg.RAJA_ENABLE_CUDA && decide (VariantName.value cfg .Base_CUDA = some vid) then
    some .Base_CUDA
  else if cfg.RAJA_ENABLE_CUDA && decide (VariantName.value cfg .RAJA_CUDA = some vid) then
    some .RAJA_CUDA
  else none

/-- Member `DOT::runKernel` (lines 137-328); `USE_THRUST` is defined at line 36. -/
def runKernel (cfg : BuildConfig) (vid : VariantID) (s : DOT) : DOT :=
  let run_reps := s.run_reps
  let ibegin : Index_type := 0
  let iend := s.run_size
  match caseLabel cfg vid with
  | some .Base_Seq => -- lines 145-164
    let a := s.m_a
    let b := s.m_b
    let s := s.startTimer
    let s := forLoop 0 run_reps (repBody fun m_dot_init =>
      forLoop ibegin iend (DOT_BODY a b) m_dot_init) s
    s.stopTimer
  | some .RAJA_Seq => -- lines 166-185
    let a := s.m_a
    let b := s.m_b
    let s := s.startTimer
    let s := forLoop 0 run_reps (repBody fun m_dot_init =>
      (RAJA_forall ibegin iend (DOT_BODY_reduce a b) (ReduceSum.init m_dot_init)).get) s
    s.stopTimer
  | some .Base_OpenMP => -- lines 188-208, `reduction(+:dot)`
    let a := s.m_a
    let b := s.m_b
    let s := s.startTimer
    let s := forLoop 0 run_reps (repBody fun m_dot_init =>
      (forLoop ibegin iend (DOT_BODY_reduce a b) (ReduceSum.init m_dot_init)).get) s
    s.stopTimer
  | some .RAJALike_OpenMP => s -- lines 210-213, "case is not defined..."
  | some .RAJA_OpenMP => -- lines 215-235
    let a := s.m_a
    let b := s.m_b
    let s := s.startTimer
    let s := forLoop 0 run_reps (repBody fun m_dot_init =>
      (RAJA_forall ibegin iend (DOT_BODY_reduce a b) (ReduceSum.init m_dot_init)).get) s
    s.stopTimer
  | some .Base_CUDA => -- lines 239-256 and 285, the `USE_THRUST` branch
    let va := s.m_a.take iend
    let vb := s.m_b.take iend
    let s := { s with events := s.events ++ [Event.deviceSetup] }
    let s := s.startTimer
    let s := forLoop 0 run_reps (repBody fun m_dot_init =>
      thrust_inner_product va vb m_dot_init) s
    let s := s.stopTimer
    { s with events := s.events ++ [Event.deviceTeardown] }
  | some .RAJA_CUDA => -- lines 288-311
    let a := s.m_a.take iend
    let b := s.m_b.take iend
    let s := { s with events := s.events ++ [Event.deviceSetup] }
    let s := s.startTimer
    let s := forLoop 0 run_reps (repBody fun m_dot_init =>
      (RAJA_forall ibegin iend (DOT_BODY_reduce a b) (ReduceSum.init m_dot_init)).get) s
    let s := s.stopTimer
    { s with events := s.events ++ [Event.deviceTeardown] }
  | some .NumVariants => s -- no such case label: `caseLabel` never selects it
  | none => -- lines 322-324, `default`
    { s with events := s.events ++ [Event.unknownVariant vid] }

/-- Member `DOT::updateChecksum` (lines 330-333): `checksum[vid] += m_dot;`. The array
has no slot at or above its size: `none` there. -/
def updateChecksum (vid : VariantID) (s : DOT) : Option DOT :=
  if h : vid < s.checksum.length then
    some { s with checksum := s.checksum.set vid (s.checksum[vid] + s.m_dot) }
  else none

/-- Member `DOT::tearDown` (lines 335-340): the two buffers are deallocated. -/
def tearDown (_vid : VariantID) (s : DOT) : DOT :=
  { s with m_a := [], m_b := [] }

/-- The first three calls of a lifecycle: setUp, runKernel, updateChecksum. -/
def runAndChecksum (cfg : BuildConfig) (a b : Real_ptr) (vid : VariantID) (s : DOT) :
    Option DOT :=
  updateChecksum vid (runKernel cfg vid (setUp a b vid s))

/-- Modelled from the spec: the call sequence of the Suite Driver (not among the
sources) for one variant, in the strict order setUp, runKernel, updateChecksum,
tearDown. -/
def lifecycle (cfg : BuildConfig) (a b : Real_ptr) (vid : VariantID) (s : DOT) :
    Option DOT :=
  (runAndChecksum cfg a b vid s).map (tearDown vid)

/-- Modelled from the spec: the passes of the Suite Driver (not among the sources), the
lifecycle of one variant repeated `k` times on the same input data. -/
def lifecycles (cfg : BuildConfig) (a b : Real_ptr) (vid : VariantID) :
    Nat → DOT → Option DOT
  | 0, s => some s
  | k + 1, s => (lifecycle cfg a b vid s).bind (lifecycles cfg a b vid k)

/-- The variant ids for which `runKernel` has a case that runs the kernel. -/
def implements (cfg : BuildConfig) (vid : VariantID) : Bool :=
  match caseLabel cfg vid with
  | some .Base_Seq | some .RAJA_Seq
  | some .Base_OpenMP | some .RAJA_OpenMP
  | some .Base_CUDA | some .RAJA_CUDA => true
  | _ => false

/-- Modelled from the spec: the checksum array of a kernel object has the fixed size
NumVariants, one slot per variant of the build (its declaration in KernelBase.hpp is
not among the sources). -/
def wellFormed (cfg : BuildConfig) (s : DOT) : Prop :=
  s.checksum.length = NumVariants cfg

instance (cfg : BuildConfig) (s : DOT) : Decidable (wellFormed cfg s) := by
  unfold wellFormed; infer_instance

end DOT

/-- The dot product of two buffers: the sum of the products of paired elements. -/
def dotProduct (a b : List Real_type) : Real_type :=
  (List.zipWith (fun x y => x * y) a b).sum

/-- Modelled from the spec: the reference-relative checksum difference the Suite Driver
(not among the sources) reports for variant `v` against the reference variant `ref`. -/
def checksumDiff (ref v : VariantID) (s : DOT) : Checksum_type :=
  s.checksum.getD v 0 - s.checksum.getD ref 0

/-- A sequential build, a small kernel object and its input data, used as concrete
inputs. -/
def seqBuild : BuildConfig := ⟨false, false, false, false⟩

/-- A build with OpenMP and CUDA. -/
def fullBuild : BuildConfig := ⟨true, true, true, true⟩

/-- A kernel object of the sequential build: run size 3, two repetitions. -/
def sampleDOT : DOT where
  run_size := 3
  run_reps := 2
  checksum := [0, 0]
  events := []
  m_a := []
  m_b := []
  m_dot := 5
  m_dot_init := 7

/-- A kernel object of the build with OpenMP and CUDA. -/
def sampleDOTFull : DOT := { sampleDOT with checksum := [0, 0, 0, 0, 0, 0, 0] }

/-- A build whose header declares the OpenMP variants (`ENABLE_OPENMP`) while DOT.cpp
is compiled without `_OPENMP`. -/
def headerOnlyOpenMP : BuildConfig := ⟨true, false, false, false⟩

/-- A kernel object of that build: five checksum slots. -/
def sampleDOTOpenMP : DOT := { sampleDOT with checksum := [1, 2, 3, 4, 5] }

def sampleA : Real_ptr := [1, 2, 3]

def sampleB : Real_ptr := [4, 5, 6]

end rajaperf

namespace rajaperf

/-! ## Helper lemmas -/

theorem numVariants_eq (cfg : BuildConfig) :
    NumVariants cfg =
      2 + (if cfg.ENABLE_OPENMP then 3 else 0) + (if cfg.ENABLE_CUDA then 2 else 0) := by
  rcases cfg with ⟨o, c, o', c'⟩
  cases o <;> cases c <;> rfl

theorem two_le_numVariants (cfg : BuildConfig) : 2 ≤ NumVariants cfg := by
  rw [numVariants_eq]; omega

theorem caseLabel_Base_Seq (cfg : BuildConfig) :
    DOT.caseLabel cfg Base_Seq = some .Base_Seq := by
  simp [DOT.caseLabel]

theorem caseLabel_RAJA_Seq (cfg : BuildConfig) :
    DOT.caseLabel cfg RAJA_Seq = some .RAJA_Seq := by
  simp [DOT.caseLabel, RAJA_Seq, Base_Seq]

theorem caseLabel_ne_NumVariants (cfg : BuildConfig) (vid : VariantID) :
    DOT.caseLabel cfg vid ≠ some .NumVariants := by
  unfold DOT.caseLabel
  split_ifs <;> simp

theorem caseLabel_value (cfg : BuildConfig) (vid : VariantID) (L : VariantName)
    (h : DOT.caseLabel cfg vid = some L) : VariantName.value cfg L = some vid := by
  unfold DOT.caseLabel at h
  split_ifs at h with h1 h2 h3 h4 h5 h6 h7 <;> cases h
  · rcases cfg with ⟨o, c, o', c'⟩
    subst h1
    cases o <;> cases c <;> rfl
  · rcases cfg with ⟨o, c, o', c'⟩
    subst h2
    cases o <;> cases c <;> rfl
  · exact of_decide_eq_true (Bool.and_eq_true_iff.mp h3).2
  · exact of_decide_eq_true (Bool.and_eq_true_iff.mp h4).2
  · exact of_decide_eq_true (Bool.and_eq_true_iff.mp h5).2
  · exact of_decide_eq_true (Bool.and_eq_true_iff.mp h6).2
  · exact of_decide_eq_true (Bool.and_eq_true_iff.mp h7).2

theorem value_lt_numVariants (cfg : BuildConfig) (L : VariantName) (v : Nat)
    (h : VariantName.value cfg L = some v) (hL : L ≠ .NumVariants) :
    v < NumVariants cfg := by
  rcases cfg with ⟨o, c, o', c'⟩
  rw [numVariants_eq]
  cases L <;> cases o <;> cases c <;>
    first
    | exact absurd rfl hL
    | (cases h; exact of_decide_eq_true rfl)
    | cases h

theorem implements_lt_numVariants (cfg : BuildConfig) (vid : VariantID)
    (h : DOT.implements cfg vid = true) : vid < NumVariants cfg := by
  unfold DOT.implements at h
  cases hl : DOT.caseLabel cfg vid with
  | none => simp [hl] at h
  | some L =>
    apply value_lt_numVariants cfg L vid (caseLabel_value cfg vid L hl)
    rintro rfl
    simp [hl] at h

/-- Closed form of a repetition loop over a list of repetition indices. -/
theorem foldl_repBody (dotOf : Real_type → Real_type) (l : List RepIndex_type) (s : DOT) :
    l.foldl (fun st i => DOT.repBody dotOf i st) s =
      { s with m_dot := s.m_dot + l.length * dotOf s.m_dot_init,
               events := s.events ++ l.map Event.rep } := by
  induction l generalizing s with
  | nil => simp
  | cons i l ih =>
    rw [List.foldl_cons, ih]
    ext <;> simp [DOT.repBody]
    ring

/-- Closed form of the repetition loop `for (irep = 0; irep < run_reps; ++irep)`. -/
theorem forLoop_repBody (dotOf : Real_type → Real_type) (r : Nat) (s : DOT) :
    forLoop 0 r (DOT.repBody dotOf) s =
      { s with m_dot := s.m_dot + r * dotOf s.m_dot_init,
               events := s.events ++ (List.range r).map Event.rep } := by
  unfold forLoop
  rw [foldl_repBody, Nat.sub_zero, List.length_range', List.range_eq_range']

/-- The sequential loop over `DOT_BODY` adds the products to the initial value. -/
theorem foldl_DOT_BODY (a b : Real_ptr) (l : List Index_type) (init : Real_type) :
    l.foldl (fun st i => DOT_BODY a b i st) init =
      init + (l.map fun i => a.read i * b.read i).sum := by
  induction l generalizing init with
  | nil => simp
  | cons i l ih =>
    rw [List.foldl_cons, ih]
    simp [DOT_BODY]
    ring

/-- The loop over `DOT_BODY` with a reducer adds the products to its value. -/
theorem foldl_DOT_BODY_reduce (a b : Real_ptr) (l : List Index_type) (r : ReduceSum) :
    (l.foldl (fun st i => DOT_BODY_reduce a b i st) r).get =
      r.get + (l.map fun i => a.read i * b.read i).sum := by
  induction l generalizing r with
  | nil => simp
  | cons i l ih =>
    rw [List.foldl_cons, ih]
    simp [DOT_BODY_reduce, ReduceSum.add, ReduceSum.get]
    ring

theorem list_sum_range_eq (f : Nat → Real_type) (n : Nat) :
    ((List.range n).map f).sum = ∑ i ∈ Finset.range n, f i := by
  induction n with
  | zero => simp
  | succ n ih => simp [List.range_succ, Finset.sum_range_succ, ih]

/-- Value of the inner loop of case `Base_Seq`. -/
theorem forLoop_DOT_BODY (a b : Real_ptr) (n : Index_type) (init : Real_type) :
    forLoop 0 n (DOT_BODY a b) init = init + ∑ i ∈ Finset.range n, a.read i * b.read i := by
  unfold forLoop
  rw [foldl_DOT_BODY, Nat.sub_zero, ← List.range_eq_range', list_sum_range_eq]

/-- Value of the reduction of case `RAJA_Seq`. -/
theorem forLoop_DOT_BODY_reduce (a b : Real_ptr) (n : Index_type) (init : Real_type) :
    (forLoop 0 n (DOT_BODY_reduce a b) (ReduceSum.init init)).get =
      init + ∑ i ∈ Finset.range n, a.read i * b.read i := by
  unfold forLoop
  rw [foldl_DOT_BODY_reduce, Nat.sub_zero, ← List.range_eq_range', list_sum_range_eq]
  simp [ReduceSum.init, ReduceSum.get]

/-- The sum over the indices below the common length is the dot product. -/
theorem sum_read_eq_dotProduct (a b : Real_ptr) (n : Nat) (ha : a.length = n)
    (hb : b.length = n) :
    ∑ i ∈ Finset.range n, a.read i * b.read i = dotProduct a b := by
  induction a generalizing b n with
  | nil =>
    simp at ha
    subst ha
    simp [dotProduct]
  | cons x xs ih =>
    cases b with
    | nil => simp at hb; subst hb; simp at ha
    | cons y ys =>
      cases n with
      | zero => simp at ha
      | succ n =>
        simp at ha hb
        have := ih ys n ha hb
        rw [Finset.sum_range_succ']
        simp [dotProduct, Real_ptr.read] at this ⊢
        rw [this]
        ring

/-- Closed form of `runKernel` in case `Base_Seq`. -/
theorem runKernel_Base_Seq (cfg : BuildConfig) (s : DOT) :
    DOT.runKernel cfg Base_Seq s =
      { s with
        m_dot := s.m_dot + s.run_reps *
          (s.m_dot_init + ∑ i ∈ Finset.range s.run_size, s.m_a.read i * s.m_b.read i),
        events := s.events ++ [Event.startTimer] ++ (List.range s.run_reps).map Event.rep
          ++ [Event.stopTimer] } := by
  simp only [DOT.runKernel, caseLabel_Base_Seq, forLoop_repBody, DOT.startTimer,
    DOT.stopTimer, forLoop_DOT_BODY]

/-- Closed form of `runKernel` in case `RAJA_Seq`. -/
theorem runKernel_RAJA_Seq (cfg : BuildConfig) (s : DOT) :
    DOT.runKernel cfg RAJA_Seq s =
      { s with
        m_dot := s.m_dot + s.run_reps *
          (s.m_dot_init + ∑ i ∈ Finset.range s.run_size, s.m_a.read i * s.m_b.read i),
        events := s.events ++ [Event.startTimer] ++ (List.range s.run_reps).map Event.rep
          ++ [Event.stopTimer] } := by
  simp only [DOT.runKernel, caseLabel_RAJA_Seq, forLoop_repBody, DOT.startTimer,
    DOT.stopTimer, RAJA_forall, forLoop_DOT_BODY_reduce]

/-- Shape of `runKernel` for every variant it implements: untimed events, one
`startTimer`, the repetitions, one `stopTimer`, untimed events; each repetition adds
to `m_dot` a value computed from the buffers, the run size and the seed. -/
theorem runKernel_implemented (cfg : BuildConfig) (vid : VariantID)
    (h : DOT.implements cfg vid = true) :
    ∃ (dotOf : Real_ptr → Real_ptr → Index_type → Real_type → Real_type)
      (pre post : List Event),
      (∀ e ∈ pre ++ post, e.isTimed = false) ∧
      ∀ s : DOT, DOT.runKernel cfg vid s =
        { s with
          m_dot := s.m_dot + s.run_reps * dotOf s.m_a s.m_b s.run_size s.m_dot_init,
          events := s.events ++ pre ++ [Event.startTimer]
            ++ (List.range s.run_reps).map Event.rep ++ [Event.stopTimer] ++ post } := by
  unfold DOT.implements at h
  cases hl : DOT.caseLabel cfg vid with
  | none => simp [hl] at h
  | some L =>
    cases L with
    | Base_Seq =>
      refine ⟨fun a b n init => forLoop 0 n (DOT_BODY a b) init, [], [], by simp, ?_⟩
      intro s
      simp only [DOT.runKernel, hl, forLoop_repBody, DOT.startTimer, DOT.stopTimer]
      simp
    | RAJA_Seq =>
      refine ⟨fun a b n init =>
        (RAJA_forall 0 n (DOT_BODY_reduce a b) (ReduceSum.init init)).get, [], [], by simp, ?_⟩
      intro s
      simp only [DOT.runKernel, hl, forLoop_repBody, DOT.startTimer, DOT.stopTimer]
      simp
    | Base_OpenMP =>
      refine ⟨fun a b n init =>
        (forLoop 0 n (DOT_BODY_reduce a b) (ReduceSum.init init)).get, [], [], by simp, ?_⟩
      intro s
      simp only [DOT.runKernel, hl, forLoop_repBody, DOT.startTimer, DOT.stopTimer]
      simp
    | RAJALike_OpenMP => simp [hl] at h
    | RAJA_OpenMP =>
      refine ⟨fun a b n init =>
        (RAJA_forall 0 n (DOT_BODY_reduce a b) (ReduceSum.init init)).get, [], [], by simp, ?_⟩
      intro s
      simp only [DOT.runKernel, hl, forLoop_repBody, DOT.startTimer, DOT.stopTimer]
      simp
    | Base_CUDA =>
      refine ⟨fun a b n init => thrust_inner_product (a.take n) (b.take n) init,
        [Event.deviceSetup], [Event.deviceTeardown], by simp [Event.isTimed], ?_⟩
      intro s
      simp only [DOT.runKernel, hl, forLoop_repBody, DOT.startTimer, DOT.stopTimer]
    | RAJA_CUDA =>
      refine ⟨fun a b n init =>
        (RAJA_forall 0 n (DOT_BODY_reduce (a.take n) (b.take n)) (ReduceSum.init init)).get,
        [Event.deviceSetup], [Event.deviceTeardown], by simp [Event.isTimed], ?_⟩
      intro s
      simp only [DOT.runKernel, hl, forLoop_repBody, DOT.startTimer, DOT.stopTimer]
    | NumVariants => simp [hl] at h

/-- A variant id that is not implemented selects the empty case or the default branch. -/
theorem caseLabel_of_not_implements (cfg : BuildConfig) (vid : VariantID)
    (h : DOT.implements cfg vid = false) :
    DOT.caseLabel cfg vid = some .RAJALike_OpenMP ∨ DOT.caseLabel cfg vid = none := by
  unfold DOT.implements at h
  have hne := caseLabel_ne_NumVariants cfg vid
  cases hl : DOT.caseLabel cfg vid with
  | none => exact Or.inr rfl
  | some L => cases L <;> simp_all

/-- Effect of `runKernel` for a variant it does not implement. -/
theorem runKernel_not_implemented (cfg : BuildConfig) (vid : VariantID) (s : DOT)
    (h : DOT.caseLabel cfg vid = some .RAJALike_OpenMP ∨ DOT.caseLabel cfg vid = none) :
    DOT.runKernel cfg vid s = s ∨
    DOT.runKernel cfg vid s = { s with events := s.events ++ [Event.unknownVariant vid] } := by
  rcases h with h | h
  · left; simp only [DOT.runKernel, h]
  · right; simp only [DOT.runKernel, h]

theorem list_set_getElem_self (l : List Checksum_type) (i : Nat) (h : i < l.length) :
    l.set i l[i] = l := by
  apply List.ext_getElem?
  intro j
  rw [List.getElem?_set]
  split_ifs with hij
  · subst hij; simp [h]
  · rfl

theorem updateChecksum_eq (vid : VariantID) (s : DOT) (h : vid < s.checksum.length) :
    DOT.updateChecksum vid s =
      some { s with checksum := s.checksum.set vid (s.checksum[vid] + s.m_dot) } := by
  simp [DOT.updateChecksum, h]

/-- One lifecycle of an implemented variant: it succeeds when the variant has a slot,
keeps the run size, the repetition count and the array size, and adds to the slot an
amount fixed by the input data, the run size and the repetition count. -/
theorem lifecycle_implemented (cfg : BuildConfig) (vid : VariantID)
    (h : DOT.implements cfg vid = true) :
    ∃ amount : Real_ptr → Real_ptr → Index_type → Index_type → Real_type,
      ∀ (a b : Real_ptr) (s : DOT) (hv : vid < s.checksum.length),
        ∃ s', DOT.lifecycle cfg a b vid s = some s' ∧
          s'.run_size = s.run_size ∧ s'.run_reps = s.run_reps ∧
          s'.checksum.length = s.checksum.length ∧
          s'.checksum[vid]? = some (s.checksum[vid] + amount a b s.run_size s.run_reps) := by
  obtain ⟨dotOf, pre, post, -, hrun⟩ := runKernel_implemented cfg vid h
  refine ⟨fun a b n r => 0 + r * dotOf a b n 0, ?_⟩
  intro a b s hv
  have ht : DOT.runKernel cfg vid (DOT.setUp a b vid s) =
      { DOT.setUp a b vid s with
        m_dot := 0 + s.run_reps * dotOf a b s.run_size 0,
        events := s.events ++ pre ++ [Event.startTimer]
          ++ (List.range s.run_reps).map Event.rep ++ [Event.stopTimer] ++ post } := by
    rw [hrun]; rfl
  refine ⟨DOT.tearDown vid
    { DOT.runKernel cfg vid (DOT.setUp a b vid s) with
      checksum := s.checksum.set vid
        (s.checksum[vid] + (0 + s.run_reps * dotOf a b s.run_size 0)) }, ?_, ?_, ?_, ?_, ?_⟩
  · simp only [DOT.lifecycle, DOT.runAndChecksum, ht, DOT.updateChecksum]
    simp [DOT.setUp, hv]
  · simp [DOT.tearDown, hrun, DOT.setUp]
  · simp [DOT.tearDown, hrun, DOT.setUp]
  · simp [DOT.tearDown]
  · simp [DOT.tearDown, hv]

/-- Repeated lifecycles of an implemented variant add the amount once per lifecycle. -/
theorem lifecycles_implemented (cfg : BuildConfig) (vid : VariantID)
    (amount : Real_ptr → Real_ptr → Index_type → Index_type → Real_type)
    (hstep : ∀ (a b : Real_ptr) (s : DOT) (hv : vid < s.checksum.length),
        ∃ s', DOT.lifecycle cfg a b vid s = some s' ∧
          s'.run_size = s.run_size ∧ s'.run_reps = s.run_reps ∧
          s'.checksum.length = s.checksum.length ∧
          s'.checksum[vid]? = some (s.checksum[vid] + amount a b s.run_size s.run_reps))
    (a b : Real_ptr) (k : Nat) (s : DOT) (hv : vid < s.checksum.length) :
    ∃ sk, DOT.lifecycles cfg a b vid k s = some sk ∧
      sk.run_size = s.run_size ∧ sk.run_reps = s.run_reps ∧
      sk.checksum.length = s.checksum.length ∧
      sk.checksum[vid]? = some (s.checksum[vid] + k * amount a b s.run_size s.run_reps) := by
  induction k generalizing s with
  | zero => exact ⟨s, rfl, rfl, rfl, rfl, by simp [hv]⟩
  | succ k ih =>
    obtain ⟨s₁, h₁, hn, hr, hlen, hc⟩ := hstep a b s hv
    have hv₁ : vid < s₁.checksum.length := by rw [hlen]; exact hv
    obtain ⟨sk, hk, hn', hr', hlen', hc'⟩ := ih s₁ hv₁
    refine ⟨sk, ?_, hn'.trans hn, hr'.trans hr, hlen'.trans hlen, ?_⟩
    · simp [DOT.lifecycles, h₁, hk]
    · rw [hc', hn, hr]
      rw [List.getElem?_eq_getElem hv₁] at hc
      have hc₁ : s₁.checksum[vid] = s.checksum[vid] + amount a b s.run_size s.run_reps :=
        Option.some.inj hc
      rw [hc₁]
      congr 1
      push_cast
      ring

/-- The sequence setUp, runKernel, updateChecksum for the two sequential variants. -/
theorem runAndChecksum_seq (cfg : BuildConfig) (a b : Real_ptr) (s : DOT) (vid : VariantID)
    (hvid : vid = Base_Seq ∨ vid = RAJA_Seq) (hv : vid < s.checksum.length) :
    DOT.runAndChecksum cfg a b vid s = some
      { s with
        m_a := a, m_b := b, m_dot_init := 0,
        m_dot := s.run_reps * ∑ i ∈ Finset.range s.run_size, a.read i * b.read i,
        events := s.events ++ [Event.startTimer] ++ (List.range s.run_reps).map Event.rep
          ++ [Event.stopTimer],
        checksum := s.checksum.set vid (s.checksum[vid] +
          s.run_reps * ∑ i ∈ Finset.range s.run_size, a.read i * b.read i) } := by
  rcases hvid with rfl | rfl
  · simp only [DOT.runAndChecksum, runKernel_Base_Seq, DOT.updateChecksum]
    simp [DOT.setUp, hv]
  · simp only [DOT.runAndChecksum, runKernel_RAJA_Seq, DOT.updateChecksum]
    simp [DOT.setUp, hv]

/-- One lifecycle of a sequential variant, and its first three steps. -/
theorem lifecycle_seq (cfg : BuildConfig) (a b : Real_ptr) (s : DOT) (vid : VariantID)
    (hvid : vid = Base_Seq ∨ vid = RAJA_Seq) (hv : vid < s.checksum.length) :
    ∃ t s', DOT.runAndChecksum cfg a b vid s = some t ∧
      DOT.lifecycle cfg a b vid s = some s' ∧
      t.checksum = s.checksum.set vid (s.checksum[vid] +
          s.run_reps * ∑ i ∈ Finset.range s.run_size, a.read i * b.read i) ∧
      s'.checksum = t.checksum ∧ s'.run_size = s.run_size ∧ s'.run_reps = s.run_reps := by
  have h := runAndChecksum_seq cfg a b s vid hvid hv
  rw [DOT.lifecycle, h]
  exact ⟨_, _, rfl, rfl, rfl, rfl, rfl, rfl⟩

/-! ## The claims -/

/-- C1: for all input buffers a and b, every run size and repetition count (the fields
of the kernel object) and every build, setUp, runKernel, updateChecksum with Base_Seq
and with RAJA_Seq from the same object both succeed and add the same amount
r * sum_i a[i]*b[i] to their own checksum slot; run one after the other on the same
object they leave the difference of slot RAJA_Seq against slot Base_Seq as it was,
hence zero when the two slots start equal. -/
theorem DOT_Base_Seq_RAJA_Seq_same_checksum (cfg : BuildConfig) (a b : Real_ptr) (s : DOT)
    (hwf : DOT.wellFormed cfg s) :
    ∃ (c₀ c₁ δ : Checksum_type) (sB sR s₁ s₂ : DOT),
      δ = s.run_reps * ∑ i ∈ Finset.range s.run_size, a.read i * b.read i ∧
      s.checksum[Base_Seq]? = some c₀ ∧ s.checksum[RAJA_Seq]? = some c₁ ∧
      DOT.runAndChecksum cfg a b Base_Seq s = some sB ∧
      DOT.runAndChecksum cfg a b RAJA_Seq s = some sR ∧
      sB.checksum[Base_Seq]? = some (c₀ + δ) ∧
      sR.checksum[RAJA_Seq]? = some (c₁ + δ) ∧
      DOT.lifecycle cfg a b Base_Seq s = some s₁ ∧
      DOT.lifecycle cfg a b RAJA_Seq s₁ = some s₂ ∧
      s₂.checksum[Base_Seq]? = some (c₀ + δ) ∧
      s₂.checksum[RAJA_Seq]? = some (c₁ + δ) ∧
      checksumDiff Base_Seq RAJA_Seq s₂ = checksumDiff Base_Seq RAJA_Seq s ∧
      (c₀ = c₁ → checksumDiff Base_Seq RAJA_Seq s₂ = 0) := by
  have h2 := two_le_numVariants cfg
  unfold DOT.wellFormed at hwf
  have h0 : Base_Seq < s.checksum.length := by rw [hwf]; exact Nat.lt_of_lt_of_le (by decide) h2
  have h1 : RAJA_Seq < s.checksum.length := by rw [hwf]; exact Nat.lt_of_lt_of_le (by decide) h2
  have h0n : 0 < s.checksum.length := h0
  have h1n : 1 < s.checksum.length := h1
  obtain ⟨sB, s₁, hB, hL₁, hcB, hc₁, hn₁, hr₁⟩ :=
    lifecycle_seq cfg a b s Base_Seq (Or.inl rfl) h0
  obtain ⟨sR, -, hR, -, hcR, -, -, -⟩ :=
    lifecycle_seq cfg a b s RAJA_Seq (Or.inr rfl) h1
  have h1' : RAJA_Seq < s₁.checksum.length := by
    rw [hc₁, hcB, List.length_set]; exact h1
  obtain ⟨t₂, s₂, -, hL₂, hct₂, hc₂, -, -⟩ :=
    lifecycle_seq cfg a b s₁ RAJA_Seq (Or.inr rfl) h1'
  have e₁ : s₁.checksum[RAJA_Seq] = s.checksum[RAJA_Seq] := by
    simp [hc₁, hcB, Base_Seq, RAJA_Seq]
  rw [hct₂, e₁, hn₁, hr₁] at hc₂
  rw [hc₁, hcB] at hc₂
  refine ⟨s.checksum[Base_Seq], s.checksum[RAJA_Seq], _, sB, sR, s₁, s₂, rfl, ?_, ?_, hB, hR,
    ?_, ?_, hL₁, hL₂, ?_, ?_, ?_, ?_⟩
  · simp [h0]
  · simp [h1]
  · simp [hcB, h0]
  · simp [hcR, h1]
  · simp [hc₂, h0n, Base_Seq, RAJA_Seq]
  · simp [hc₂, h1n, Base_Seq, RAJA_Seq]
  · simp [checksumDiff, hc₂, h0n, h1n, Base_Seq, RAJA_Seq]
  · intro hc
    simp [checksumDiff, hc₂, h0n, h1n, Base_Seq, RAJA_Seq] at hc ⊢
    rw [hc]; ring

/-- C1 at a concrete input: the sequential build, run size 3, two repetitions,
a = [1,2,3], b = [4,5,6], both checksum slots 0 at the start. Each variant adds
2 * 32 = 64 to its slot and the difference of the slots is 0 at the end. -/
theorem DOT_Base_Seq_RAJA_Seq_same_checksum_witness :
    DOT.wellFormed seqBuild sampleDOT ∧
    ∃ sB sR s₁ s₂ : DOT,
      DOT.runAndChecksum seqBuild sampleA sampleB Base_Seq sampleDOT = some sB ∧
      DOT.runAndChecksum seqBuild sampleA sampleB RAJA_Seq sampleDOT = some sR ∧
      sB.checksum[Base_Seq]? = some 64 ∧
      sR.checksum[RAJA_Seq]? = some 64 ∧
      DOT.lifecycle seqBuild sampleA sampleB Base_Seq sampleDOT = some s₁ ∧
      DOT.lifecycle seqBuild sampleA sampleB RAJA_Seq s₁ = some s₂ ∧
      s₂.checksum[Base_Seq]? = some 64 ∧
      s₂.checksum[RAJA_Seq]? = some 64 ∧
      checksumDiff Base_Seq RAJA_Seq s₂ = 0 := by
  refine ⟨by decide, ?_⟩
  obtain ⟨c₀, c₁, δ, sB, sR, s₁, s₂, hδ, h0, h1, hB, hR, hcB, hcR, hL₁, hL₂, hc0, hc1, -, hz⟩ :=
    DOT_Base_Seq_RAJA_Seq_same_checksum seqBuild sampleA sampleB sampleDOT (by decide)
  have e0 : c₀ = 0 := by
    simpa [sampleDOT, Base_Seq] using h0.symm
  have e1 : c₁ = 0 := by
    simpa [sampleDOT, RAJA_Seq] using h1.symm
  have eδ : δ = 64 := by
    rw [hδ]
    simp [sampleDOT, sampleA, sampleB, Real_ptr.read, Finset.sum_range_succ]
    norm_num
  subst e0 e1 eδ
  refine ⟨sB, sR, s₁, s₂, hB, hR, ?_, ?_, hL₁, hL₂, ?_, ?_, hz rfl⟩
  · simpa using hcB
  · simpa using hcR
  · simpa using hc0
  · simpa using hc1

/-- C2 as stated fails for an id that reaches the default branch without being a
variant of the build: in the sequential build the sentinel NumVariants = 2 selects the
default branch, and `checksum[2] += m_dot` of updateChecksum indexes outside the
checksum array of two slots, so the lifecycle has no result that leaves the array as
it was. -/
theorem DOT_sentinel_id_lifecycle_outside_checksum :
    DOT.wellFormed seqBuild sampleDOT ∧ sampleDOT.checksum.length = 2 ∧
    NumVariants seqBuild = 2 ∧
    DOT.caseLabel seqBuild 2 = none ∧ DOT.implements seqBuild 2 = false ∧
    (DOT.runKernel seqBuild 2 (DOT.setUp sampleA sampleB 2 sampleDOT)).events =
      [Event.unknownVariant 2] ∧
    DOT.updateChecksum 2 (DOT.runKernel seqBuild 2 (DOT.setUp sampleA sampleB 2 sampleDOT)) =
      none ∧
    DOT.lifecycle seqBuild sampleA sampleB 2 sampleDOT = none ∧
    ¬ ∃ s', DOT.lifecycle seqBuild sampleA sampleB 2 sampleDOT = some s' ∧
      s'.checksum = sampleDOT.checksum := by
  have hnone : DOT.lifecycle seqBuild sampleA sampleB 2 sampleDOT = none := by decide
  refine ⟨by decide, by decide, by decide, by decide, by decide, by decide, by decide,
    hnone, ?_⟩
  rintro ⟨s', hs', -⟩
  rw [hnone] at hs'
  cases hs'

/-- C2 amended: for every variant id that runKernel does not implement (it selects the
empty case RAJALike_OpenMP or the default branch), runKernel records no timer call
and no repetition and leaves the accumulator as it is; and when the id is a variant of
the build (below NumVariants, so with a slot in the checksum array of NumVariants
slots) the lifecycle setUp, runKernel, updateChecksum, tearDown succeeds and leaves
the whole checksum array, slot vid included, as it was. -/
theorem DOT_unimplemented_variant_no_effect (cfg : BuildConfig) (vid : VariantID)
    (a b : Real_ptr) (s : DOT) (hun : DOT.implements cfg vid = false) :
    (DOT.caseLabel cfg vid = some .RAJALike_OpenMP ∨ DOT.caseLabel cfg vid = none) ∧
    (∃ extra, (DOT.runKernel cfg vid s).events = s.events ++ extra ∧
      ∀ e ∈ extra, e.isTimed = false) ∧
    (DOT.runKernel cfg vid s).m_dot = s.m_dot ∧
    (DOT.wellFormed cfg s → vid < NumVariants cfg →
      ∃ s', DOT.lifecycle cfg a b vid s = some s' ∧ s'.checksum = s.checksum) := by
  have h := caseLabel_of_not_implements cfg vid hun
  refine ⟨h, ?_, ?_, ?_⟩
  · rcases runKernel_not_implemented cfg vid s h with e | e
    · exact ⟨[], by simp [e], by simp⟩
    · exact ⟨[Event.unknownVariant vid], by rw [e], by simp [Event.isTimed]⟩
  · rcases runKernel_not_implemented cfg vid s h with e | e <;> rw [e]
  · intro hwf hv
    have hlen : vid < s.checksum.length := by rw [hwf]; exact hv
    rcases runKernel_not_implemented cfg vid (DOT.setUp a b vid s) h with e | e
    · refine ⟨DOT.tearDown vid (DOT.setUp a b vid s), ?_, rfl⟩
      simp only [DOT.lifecycle, DOT.runAndChecksum, e, DOT.updateChecksum]
      simp [DOT.setUp, hlen, list_set_getElem_self]
    · refine ⟨DOT.tearDown vid
        { DOT.setUp a b vid s with events := s.events ++ [Event.unknownVariant vid] }, ?_, rfl⟩
      simp only [DOT.lifecycle, DOT.runAndChecksum, e, DOT.updateChecksum]
      simp [DOT.setUp, hlen, list_set_getElem_self]

/-- C2 at two concrete inputs: RAJALike_OpenMP (value 3) in the build with OpenMP and
CUDA, and Base_OpenMP (value 2) in a build that declares the OpenMP variants but
compiles DOT.cpp without `_OPENMP`, where it reaches the default branch. In both the
checksum array is the same after the lifecycle. -/
theorem DOT_unimplemented_variant_no_effect_witness :
    (DOT.implements fullBuild 3 = false ∧
      DOT.caseLabel fullBuild 3 = some .RAJALike_OpenMP ∧
      DOT.wellFormed fullBuild sampleDOTFull ∧ 3 < NumVariants fullBuild ∧
      (∃ extra, (DOT.runKernel fullBuild 3 sampleDOTFull).events =
          sampleDOTFull.events ++ extra ∧ ∀ e ∈ extra, e.isTimed = false) ∧
      (DOT.runKernel fullBuild 3 sampleDOTFull).m_dot = sampleDOTFull.m_dot ∧
      ∃ s', DOT.lifecycle fullBuild sampleA sampleB 3 sampleDOTFull = some s' ∧
        s'.checksum = [0, 0, 0, 0, 0, 0, 0]) ∧
    (DOT.implements headerOnlyOpenMP 2 = false ∧
      DOT.caseLabel headerOnlyOpenMP 2 = none ∧
      DOT.wellFormed headerOnlyOpenMP sampleDOTOpenMP ∧ 2 < NumVariants headerOnlyOpenMP ∧
      ∃ s', DOT.lifecycle headerOnlyOpenMP sampleA sampleB 2 sampleDOTOpenMP = some s' ∧
        s'.checksum = [1, 2, 3, 4, 5]) :=
  ⟨⟨by decide, by decide, by decide, by decide,
    (DOT_unimplemented_variant_no_effect fullBuild 3 sampleA sampleB sampleDOTFull
      (by decide)).2.1,
    (DOT_unimplemented_variant_no_effect fullBuild 3 sampleA sampleB sampleDOTFull
      (by decide)).2.2.1,
    (DOT_unimplemented_variant_no_effect fullBuild 3 sampleA sampleB sampleDOTFull
      (by decide)).2.2.2 (by decide) (by decide)⟩,
   ⟨by decide, by decide, by decide, by decide,
    (DOT_unimplemented_variant_no_effect headerOnlyOpenMP 2 sampleA sampleB sampleDOTOpenMP
      (by decide)).2.2.2 (by decide) (by decide)⟩⟩

/-- C3: for a variant vid that runKernel implements, fixed input buffers and every k,
k consecutive lifecycles setUp, runKernel, updateChecksum, tearDown succeed and leave
checksum[vid] equal to its initial value c plus k times the amount d that a single
lifecycle adds; the slot is never reset. -/
theorem DOT_checksum_accumulates (cfg : BuildConfig) (vid : VariantID) (a b : Real_ptr)
    (k : Nat) (s : DOT)
    (hwf : DOT.wellFormed cfg s) (himpl : DOT.implements cfg vid = true) :
    ∃ (c d : Checksum_type) (s₁ sₖ : DOT),
      s.checksum[vid]? = some c ∧
      DOT.lifecycle cfg a b vid s = some s₁ ∧ s₁.checksum[vid]? = some (c + d) ∧
      DOT.lifecycles cfg a b vid k s = some sₖ ∧ sₖ.checksum[vid]? = some (c + k * d) := by
  have hlen : vid < s.checksum.length := by
    rw [hwf]; exact implements_lt_numVariants cfg vid himpl
  obtain ⟨amount, hstep⟩ := lifecycle_implemented cfg vid himpl
  obtain ⟨s₁, h₁, -, -, -, hc₁⟩ := hstep a b s hlen
  obtain ⟨sₖ, hk, -, -, -, hck⟩ := lifecycles_implemented cfg vid amount hstep a b k s hlen
  exact ⟨s.checksum[vid], amount a b s.run_size s.run_reps, s₁, sₖ, by simp [hlen], h₁, hc₁,
    hk, hck⟩

/-- C3 at a concrete input: three lifecycles of RAJA_Seq in the sequential build, run
size 3, two repetitions, a = [1,2,3], b = [4,5,6]: the slot goes from 0 to 64 after
one lifecycle and to 3 * 64 = 192 after three. -/
theorem DOT_checksum_accumulates_witness :
    DOT.wellFormed seqBuild sampleDOT ∧ DOT.implements seqBuild RAJA_Seq = true ∧
    ∃ s₁ sₖ : DOT,
      sampleDOT.checksum[RAJA_Seq]? = some 0 ∧
      DOT.lifecycle seqBuild sampleA sampleB RAJA_Seq sampleDOT = some s₁ ∧
      s₁.checksum[RAJA_Seq]? = some 64 ∧
      DOT.lifecycles seqBuild sampleA sampleB RAJA_Seq 3 sampleDOT = some sₖ ∧
      sₖ.checksum[RAJA_Seq]? = some 192 := by
  refine ⟨by decide, by decide, ?_⟩
  obtain ⟨c, d, s₁, sₖ, hc, h₁, hc₁, hk, hck⟩ :=
    DOT_checksum_accumulates seqBuild RAJA_Seq sampleA sampleB 3 sampleDOT
      (by decide) (by decide)
  have ec : c = 0 := by
    simpa [sampleDOT, RAJA_Seq] using hc.symm
  obtain ⟨t, s₁', -, h₁', ht, hs₁', -, -⟩ :=
    lifecycle_seq seqBuild sampleA sampleB sampleDOT RAJA_Seq (Or.inr rfl) (by decide)
  have es : s₁ = s₁' := Option.some.inj (h₁.symm.trans h₁')
  have h64 : s₁'.checksum[RAJA_Seq]? = some 64 := by
    rw [hs₁', ht]
    simp [sampleDOT, sampleA, sampleB, Real_ptr.read, Finset.sum_range_succ, RAJA_Seq]
    norm_num
  have ed : d = 64 := by
    subst es ec
    rw [h64] at hc₁
    have := Option.some.inj hc₁
    linarith
  subst ec ed
  refine ⟨s₁, sₖ, hc, h₁, ?_, hk, ?_⟩
  · simpa using hc₁
  · rw [hck]; norm_num

/-- C4: setUp, runKernel and tearDown leave the checksum array of every kernel object
unchanged for every variant id, and updateChecksum(vid), for a vid with a slot,
succeeds, keeps the size of the array and leaves checksum[w] unchanged for every w
different from vid. -/
theorem DOT_checksum_frame (cfg : BuildConfig) (a b : Real_ptr) (vid w : VariantID) (s : DOT)
    (hv : vid < s.checksum.length) (hw : w ≠ vid) :
    (∀ (v : VariantID) (t : DOT), (DOT.setUp a b v t).checksum = t.checksum ∧
      (DOT.runKernel cfg v t).checksum = t.checksum ∧
      (DOT.tearDown v t).checksum = t.checksum) ∧
    ∃ s', DOT.updateChecksum vid s = some s' ∧
      s'.checksum.length = s.checksum.length ∧ s'.checksum[w]? = s.checksum[w]? := by
  refine ⟨fun v t => ⟨rfl, ?_, rfl⟩, _, updateChecksum_eq vid s hv, by simp, ?_⟩
  · by_cases hi : DOT.implements cfg v = true
    · obtain ⟨dotOf, pre, post, -, hrun⟩ := runKernel_implemented cfg v hi
      rw [hrun]
    · have hcase := caseLabel_of_not_implements cfg v (by simpa using hi)
      rcases runKernel_not_implemented cfg v t hcase with e | e <;> rw [e]
  · simp [List.getElem?_set_ne (Ne.symm hw)]

/-- C4 at a concrete input: updateChecksum(Base_Seq) and slot RAJA_Seq. -/
theorem DOT_checksum_frame_witness :
    Base_Seq < sampleDOT.checksum.length ∧ RAJA_Seq ≠ Base_Seq ∧
    (∀ (v : VariantID) (t : DOT), (DOT.setUp sampleA sampleB v t).checksum = t.checksum ∧
      (DOT.runKernel seqBuild v t).checksum = t.checksum ∧
      (DOT.tearDown v t).checksum = t.checksum) ∧
    ∃ s', DOT.updateChecksum Base_Seq sampleDOT = some s' ∧
      s'.checksum.length = sampleDOT.checksum.length ∧
      s'.checksum[RAJA_Seq]? = sampleDOT.checksum[RAJA_Seq]? :=
  ⟨by decide, by decide,
   DOT_checksum_frame seqBuild sampleA sampleB Base_Seq RAJA_Seq sampleDOT (by decide)
     (by decide)⟩

/-- C5: setUp overwrites the accumulator m_dot and the seed m_dot_init with 0 (and the
two buffers with the input data) and does not touch the checksum array, so for two
kernel states that agree on everything but m_dot and m_dot_init (they may even differ
in the old buffers), setUp then runKernel on the same input data ends in the same
state, in particular with the same m_dot. -/
theorem DOT_setUp_independent_of_accumulator (cfg : BuildConfig) (vid : VariantID)
    (a b : Real_ptr) (s₁ s₂ : DOT) (hsame : s₁.toKernelBase = s₂.toKernelBase) :
    (DOT.runKernel cfg vid (DOT.setUp a b vid s₁)).m_dot =
      (DOT.runKernel cfg vid (DOT.setUp a b vid s₂)).m_dot ∧
    DOT.runKernel cfg vid (DOT.setUp a b vid s₁) =
      DOT.runKernel cfg vid (DOT.setUp a b vid s₂) ∧
    (DOT.setUp a b vid s₁).m_dot = 0 ∧ (DOT.setUp a b vid s₁).m_dot_init = 0 ∧
    (DOT.setUp a b vid s₁).checksum = s₁.checksum := by
  have hset : DOT.setUp a b vid s₁ = DOT.setUp a b vid s₂ := by
    simp only [DOT.setUp, hsame]
  exact ⟨by rw [hset], by rw [hset], rfl, rfl, rfl⟩

/-- C5 at a concrete input: Base_Seq from the sample object (m_dot = 5, m_dot_init = 7)
and from the same object with m_dot = 100 and m_dot_init = -3: both runs end with
m_dot = 64. -/
theorem DOT_setUp_independent_of_accumulator_witness :
    sampleDOT.toKernelBase =
      ({ sampleDOT with m_dot := 100, m_dot_init := -3 } : DOT).toKernelBase ∧
    (DOT.runKernel seqBuild Base_Seq (DOT.setUp sampleA sampleB Base_Seq sampleDOT)).m_dot =
      (DOT.runKernel seqBuild Base_Seq (DOT.setUp sampleA sampleB Base_Seq
        { sampleDOT with m_dot := 100, m_dot_init := -3 })).m_dot ∧
    (DOT.runKernel seqBuild Base_Seq (DOT.setUp sampleA sampleB Base_Seq
        { sampleDOT with m_dot := 100, m_dot_init := -3 })).m_dot = 64 := by
  have h := DOT_setUp_independent_of_accumulator seqBuild Base_Seq sampleA sampleB sampleDOT
    { sampleDOT with m_dot := 100, m_dot_init := -3 } rfl
  refine ⟨rfl, h.1, ?_⟩
  rw [← h.1, runKernel_Base_Seq]
  simp [DOT.setUp, sampleDOT, sampleA, sampleB, Real_ptr.read, Finset.sum_range_succ]
  norm_num

/-- C6: for every variant id that runKernel implements and every repetition count,
the events runKernel records are: events that are neither timer calls nor
repetitions, one startTimer, the repetitions 0 .. r-1 in order, one stopTimer, events
that are neither timer calls nor repetitions. So there is exactly one startTimer,
right before the first repetition, exactly one stopTimer, right after the last, and
the r repetitions are all the repetitions. -/
theorem DOT_runKernel_timer_brackets_repetitions (cfg : BuildConfig) (vid : VariantID)
    (s : DOT) (himpl : DOT.implements cfg vid = true) :
    ∃ pre post trace : List Event,
      (DOT.runKernel cfg vid s).events = s.events ++ trace ∧
      trace = pre ++ [Event.startTimer] ++ (List.range s.run_reps).map Event.rep
        ++ [Event.stopTimer] ++ post ∧
      (∀ e ∈ pre ++ post, e.isTimed = false) ∧
      trace.count Event.startTimer = 1 ∧
      trace.count Event.stopTimer = 1 ∧
      trace.filter Event.isRep = (List.range s.run_reps).map Event.rep ∧
      (trace.filter Event.isRep).length = s.run_reps := by
  obtain ⟨dotOf, pre, post, hpp, hrun⟩ := runKernel_implemented cfg vid himpl
  have hpre : ∀ e ∈ pre, e.isTimed = false := fun e he =>
    hpp e (List.mem_append_left _ he)
  have hpost : ∀ e ∈ post, e.isTimed = false := fun e he =>
    hpp e (List.mem_append_right _ he)
  have hstart_pre : Event.startTimer ∉ pre := fun hm => by
    have := hpre _ hm; simp [Event.isTimed] at this
  have hstart_post : Event.startTimer ∉ post := fun hm => by
    have := hpost _ hm; simp [Event.isTimed] at this
  have hstop_pre : Event.stopTimer ∉ pre := fun hm => by
    have := hpre _ hm; simp [Event.isTimed] at this
  have hstop_post : Event.stopTimer ∉ post := fun hm => by
    have := hpost _ hm; simp [Event.isTimed] at this
  have hrep_pre : pre.filter Event.isRep = [] := by
    rw [List.filter_eq_nil_iff]
    intro e he
    have := hpre e he
    cases e <;> simp_all [Event.isTimed, Event.isRep]
  have hrep_post : post.filter Event.isRep = [] := by
    rw [List.filter_eq_nil_iff]
    intro e he
    have := hpost e he
    cases e <;> simp_all [Event.isTimed, Event.isRep]
  have hreps : ((List.range s.run_reps).map Event.rep).filter Event.isRep =
      (List.range s.run_reps).map Event.rep := by
    rw [List.filter_eq_self]
    intro e he
    obtain ⟨i, -, rfl⟩ := List.mem_map.1 he
    rfl
  have hfilter : (pre ++ [Event.startTimer] ++ (List.range s.run_reps).map Event.rep
      ++ [Event.stopTimer] ++ post).filter Event.isRep =
      (List.range s.run_reps).map Event.rep := by
    simp only [List.filter_append, hrep_pre, hrep_post, hreps]
    simp [Event.isRep]
  refine ⟨pre, post, _, ?_, rfl, hpp, ?_, ?_, hfilter, ?_⟩
  · rw [hrun]
    simp only [List.append_assoc]
  · simp only [List.count_append, List.count_eq_zero.2 hstart_pre,
      List.count_eq_zero.2 hstart_post]
    have : Event.startTimer ∉ (List.range s.run_reps).map Event.rep := by simp
    rw [List.count_eq_zero.2 this]
    simp
  · simp only [List.count_append, List.count_eq_zero.2 hstop_pre,
      List.count_eq_zero.2 hstop_post]
    have : Event.stopTimer ∉ (List.range s.run_reps).map Event.rep := by simp
    rw [List.count_eq_zero.2 this]
    simp
  · rw [hfilter]; simp

/-- C6 at a concrete input: Base_CUDA (value 5) in the build with OpenMP and CUDA, two
repetitions. -/
theorem DOT_runKernel_timer_brackets_repetitions_witness :
    DOT.implements fullBuild 5 = true ∧
    (DOT.runKernel fullBuild 5 sampleDOTFull).events =
      [Event.deviceSetup, Event.startTimer, Event.rep 0, Event.rep 1, Event.stopTimer,
       Event.deviceTeardown] ∧
    ∃ pre post trace : List Event,
      (DOT.runKernel fullBuild 5 sampleDOTFull).events = sampleDOTFull.events ++ trace ∧
      trace = pre ++ [Event.startTimer] ++ (List.range sampleDOTFull.run_reps).map Event.rep
        ++ [Event.stopTimer] ++ post ∧
      (∀ e ∈ pre ++ post, e.isTimed = false) ∧
      trace.count Event.startTimer = 1 ∧
      trace.count Event.stopTimer = 1 ∧
      trace.filter Event.isRep = (List.range sampleDOTFull.run_reps).map Event.rep ∧
      (trace.filter Event.isRep).length = sampleDOTFull.run_reps :=
  ⟨by decide, by decide,
   DOT_runKernel_timer_brackets_repetitions fullBuild 5 sampleDOTFull (by decide)⟩

/-- C7 as stated fails: the public member setInputState changes the input state of
a constructed object (here from GoodToRun to BadInput), the public members
setInvalidKernelInput and setInvalidVariantInput change its invalid token lists, and
the public copy assignment changes every field, the pass count (here from 1 to 3), the
valid token lists and the output directory among them. -/
theorem RunParams_setInputState_changes_input_state :
    RunParams.getInputState RunParams.sample = InputOpt.GoodToRun ∧
    RunParams.getInputState
      (RunParams.exec (RunParams.Op.setInputState InputOpt.BadInput) RunParams.sample) =
      InputOpt.BadInput ∧
    RunParams.exec (RunParams.Op.setInputState InputOpt.BadInput) RunParams.sample ≠
      RunParams.sample ∧
    RunParams.getInvalidKernelInput RunParams.sample = [] ∧
    RunParams.getInvalidKernelInput
      (RunParams.exec (RunParams.Op.setInvalidKernelInput ["NoSuchKernel"]) RunParams.sample) =
      ["NoSuchKernel"] ∧
    RunParams.getInvalidVariantInput RunParams.sample = [] ∧
    RunParams.getInvalidVariantInput
      (RunParams.exec (RunParams.Op.setInvalidVariantInput ["NoSuchVariant"])
        RunParams.sample) = ["NoSuchVariant"] ∧
    RunParams.getNumPasses RunParams.sample = 1 ∧
    RunParams.getNumPasses
      (RunParams.exec (RunParams.Op.copyAssign RunParams.other) RunParams.sample) = 3 ∧
    RunParams.getKernelInput RunParams.sample = ["Stream_DOT"] ∧
    RunParams.getKernelInput
      (RunParams.exec (RunParams.Op.copyAssign RunParams.other) RunParams.sample) =
      ["Basic"] ∧
    RunParams.getOutputDirName RunParams.sample = "." ∧
    RunParams.getOutputDirName
      (RunParams.exec (RunParams.Op.copyAssign RunParams.other) RunParams.sample) =
      "out" := by
  refine ⟨rfl, rfl, ?_, rfl, rfl, rfl, rfl, rfl, rfl, rfl, rfl, rfl, rfl⟩
  intro h
  have := congrArg RunParams.input_state h
  simp [RunParams.exec, RunParams.setInputState, RunParams.sample] at this

/-- C7 amended: a constructed object is changed only by its three public setters and by
the implicit public copy assignment. The copy assignment makes the object equal to
the right-hand object. Every other public operation leaves the pass count, the sample
and size fraction, the reference variant, the valid kernel and variant token lists and
the output names unchanged, and changes the input state only if it is setInputState,
the invalid kernel list only if it is setInvalidKernelInput, the invalid variant list
only if it is setInvalidVariantInput, each to its argument; so the getters and print
change nothing. -/
theorem RunParams_written_only_by_setters_and_assignment (op : RunParams.Op)
    (p : RunParams) :
    (∀ q : RunParams, RunParams.exec (RunParams.Op.copyAssign q) p = q) ∧
    ((∃ q : RunParams, op = RunParams.Op.copyAssign q) ∨
     ((RunParams.exec op p).npasses = p.npasses ∧
      (RunParams.exec op p).sample_fraction = p.sample_fraction ∧
      (RunParams.exec op p).size_fraction = p.size_fraction ∧
      (RunParams.exec op p).reference_variant = p.reference_variant ∧
      (RunParams.exec op p).kernel_input = p.kernel_input ∧
      (RunParams.exec op p).variant_input = p.variant_input ∧
      (RunParams.exec op p).outdir = p.outdir ∧
      RunParams.getOutputFilePrefix (RunParams.exec op p) = RunParams.getOutputFilePrefix p ∧
      ((RunParams.exec op p).input_state = p.input_state ∨
        op = RunParams.Op.setInputState (RunParams.exec op p).input_state) ∧
      ((RunParams.exec op p).invalid_kernel_input = p.invalid_kernel_input ∨
        op = RunParams.Op.setInvalidKernelInput (RunParams.exec op p).invalid_kernel_input) ∧
      ((RunParams.exec op p).invalid_variant_input = p.invalid_variant_input ∨
        op = RunParams.Op.setInvalidVariantInput
          (RunParams.exec op p).invalid_variant_input))) := by
  refine ⟨fun q => rfl, ?_⟩
  cases op <;>
    simp [RunParams.exec, RunParams.setInputState, RunParams.setInvalidKernelInput,
      RunParams.setInvalidVariantInput, RunParams.getOutputFilePrefix]

/-- C8: the kernels are the declared enumerators before the sentinel, their values are
exactly 0 .. NumKernels-1 in declaration order, `NumKernels` is their count and is not
a kernel, and for kernels j, k with value j <= value k the group named by the prefix
of j's identifier has a value <= that of k's, both below `NumGroups`. -/
theorem KernelID_ordered_by_group :
    KernelID.kernels.map KernelID.value = (List.range NumKernels).map some ∧
    NumKernels = KernelID.kernels.length ∧
    KernelID.NumKernels ∉ KernelID.kernels ∧
    KernelID.value .NumKernels = some NumKernels ∧
    (∀ j ∈ KernelID.kernels, ∀ k ∈ KernelID.kernels,
      ∀ vj ∈ j.value, ∀ vk ∈ k.value, vj ≤ vk →
        ∃ gj ∈ j.groupValue, ∃ gk ∈ k.groupValue, gj ≤ gk ∧ gk < NumGroups) := by
  decide

end rajaperf

namespace rajaperf

/-- C9: in every build, Base_Seq = 0 and RAJA_Seq = 1 are variants, the three OpenMP
variants are variants exactly when ENABLE_OPENMP is defined, the two CUDA variants
exactly when ENABLE_CUDA is defined, the variants have the values 0 .. NumVariants-1
in declaration order, and NumVariants is the number of variants,
2 + 3 (OpenMP) + 2 (CUDA). -/
theorem VariantID_build_flags (cfg : BuildConfig) :
    VariantName.value cfg .Base_Seq = some Base_Seq ∧ Base_Seq = 0 ∧
    VariantName.value cfg .RAJA_Seq = some RAJA_Seq ∧ RAJA_Seq = 1 ∧
    (∀ v ∈ [VariantName.Base_Seq, VariantName.RAJA_Seq], v ∈ VariantName.variants cfg) ∧
    (∀ v ∈ [VariantName.Base_OpenMP, VariantName.RAJALike_OpenMP, VariantName.RAJA_OpenMP],
      v ∈ VariantName.variants cfg ↔ cfg.ENABLE_OPENMP = true) ∧
    (∀ v ∈ [VariantName.Base_CUDA, VariantName.RAJA_CUDA],
      v ∈ VariantName.variants cfg ↔ cfg.ENABLE_CUDA = true) ∧
    (VariantName.variants cfg).map (VariantName.value cfg) =
      (List.range (NumVariants cfg)).map some ∧
    VariantName.NumVariants ∉ VariantName.variants cfg ∧
    VariantName.value cfg .NumVariants = some (NumVariants cfg) ∧
    NumVariants cfg = (VariantName.variants cfg).length ∧
    NumVariants cfg =
      2 + (if cfg.ENABLE_OPENMP then 3 else 0) + (if cfg.ENABLE_CUDA then 2 else 0) := by
  rcases cfg with ⟨o, c, o', c'⟩
  cases o <;> cases c <;> cases o' <;> cases c' <;> decide

/-- C10: in case Base_Seq, for every run size n, repetition count r and buffers a, b
of n elements, runKernel runs the repetition body exactly r times (repetitions
0 .. r-1 between the two timer calls) and ends with
m_dot = m_dot_before + r * (m_dot_init + sum_{i<n} a[i]*b[i]), the sum being the dot
product of a and b; after setUp it ends with m_dot = r * (a . b), which is 0 when
r = 0 or n = 0. -/
theorem DOT_Base_Seq_runKernel_value (cfg : BuildConfig) (a b : Real_ptr) (s : DOT)
    (ha : a.length = s.run_size) (hb : b.length = s.run_size) :
    (DOT.runKernel cfg Base_Seq { s with m_a := a, m_b := b }).m_dot =
      s.m_dot + s.run_reps *
        (s.m_dot_init + ∑ i ∈ Finset.range s.run_size, a.read i * b.read i) ∧
    (DOT.runKernel cfg Base_Seq { s with m_a := a, m_b := b }).m_dot =
      s.m_dot + s.run_reps * (s.m_dot_init + dotProduct a b) ∧
    (DOT.runKernel cfg Base_Seq { s with m_a := a, m_b := b }).events =
      s.events ++ [Event.startTimer] ++ (List.range s.run_reps).map Event.rep
        ++ [Event.stopTimer] ∧
    ((DOT.runKernel cfg Base_Seq { s with m_a := a, m_b := b }).events.filter
      Event.isRep).length = (s.events.filter Event.isRep).length + s.run_reps ∧
    (DOT.runKernel cfg Base_Seq (DOT.setUp a b Base_Seq s)).m_dot =
      s.run_reps * dotProduct a b ∧
    (s.run_reps = 0 ∨ s.run_size = 0 →
      (DOT.runKernel cfg Base_Seq (DOT.setUp a b Base_Seq s)).m_dot = 0) := by
  have hsum := sum_read_eq_dotProduct a b s.run_size ha hb
  have hrep : ((List.range s.run_reps).map Event.rep).filter Event.isRep =
      (List.range s.run_reps).map Event.rep := by
    rw [List.filter_eq_self]
    intro e he
    obtain ⟨i, -, rfl⟩ := List.mem_map.1 he
    rfl
  refine ⟨?_, ?_, ?_, ?_, ?_, ?_⟩
  · rw [runKernel_Base_Seq]
  · rw [runKernel_Base_Seq]
    simp only [hsum]
  · rw [runKernel_Base_Seq]
  · rw [runKernel_Base_Seq]
    simp only [List.filter_append, hrep]
    simp [Event.isRep]
  · rw [runKernel_Base_Seq]
    simp [DOT.setUp, hsum]
  · intro h0
    rw [runKernel_Base_Seq]
    rcases h0 with h0 | h0
    · simp [DOT.setUp, h0]
    · simp [DOT.setUp, h0]

/-- C10 at a concrete input: run size 3, two repetitions, a = [1,2,3], b = [4,5,6],
so a . b = 32; from m_dot = 5 and m_dot_init = 7 the result is 5 + 2 * (7 + 32) = 83,
and after setUp it is 2 * 32 = 64. -/
theorem DOT_Base_Seq_runKernel_value_witness :
    sampleA.length = sampleDOT.run_size ∧ sampleB.length = sampleDOT.run_size ∧
    (DOT.runKernel seqBuild Base_Seq { sampleDOT with m_a := sampleA, m_b := sampleB }).m_dot =
      83 ∧
    (DOT.runKernel seqBuild Base_Seq (DOT.setUp sampleA sampleB Base_Seq sampleDOT)).m_dot =
      64 := by
  have h := DOT_Base_Seq_runKernel_value seqBuild sampleA sampleB sampleDOT
    (by decide) (by decide)
  refine ⟨by decide, by decide, ?_, ?_⟩
  · rw [h.2.1]
    norm_num [sampleDOT, sampleA, sampleB, dotProduct]
  · rw [h.2.2.2.2.1]
    norm_num [sampleDOT, sampleA, sampleB, dotProduct]

end rajaperf
